import Mathlib

/-!
Verification of the weather-forecast post-processing pipeline:
window assembly (`build_input_window`), model-output decoding
(`run_model_and_decode`), rule-based event detection (`detect_events`,
with the longest-consecutive-run primitive `longest_run`) and summary
composition (`build_summary`).

Numeric values (temperatures, wind speeds, class probabilities, feature
values) are modelled as rationals; severity classes as naturals; the
textual rendering of a rational with one decimal place (Python's `:.1f`)
is abstracted as a `fmt : ℚ → String` parameter, since its IEEE-754
rounding is outside this embedding and no verified property depends on
it.  Fallible operations (Python indexing that can raise `IndexError`,
the window builder's `ValueError`s) return `Option` / `Except`.
-/

namespace Weather

/-- One decoded forecast day (the dict built by `_run_model_and_decode`).
`rain_level` and `wind_level` are the ordinal severity classes 0..4. -/
structure ForecastDay where
  date : String
  day_name : String
  heat_index : ℚ
  temp_avg : ℚ
  wind_speed : ℚ
  rain_level : ℕ
  wind_level : ℕ
deriving DecidableEq, Repr

/-- Event record with a run span (`heatwave`, `long_rain`). -/
structure RunEvent where
  has_event : Bool
  start_idx : ℤ
  end_idx : ℤ
deriving DecidableEq, Repr

/-- Event record with only a flag (`hot_dry`, `comfortable`, `showers`,
`urban_flood_risk`). -/
structure FlagEvent where
  has_event : Bool
deriving DecidableEq, Repr

/-- Event record with a list of qualifying day indices (`heavy_rain`,
`strong_wind`, `thunderstorm`, `storm_risk`). -/
structure DaysEvent where
  has_event : Bool
  days : List ℕ
deriving DecidableEq, Repr

/-- The event report returned by `detect_events` (the closed record view
of the Python dict; `eventDict` below recovers the dict shape). -/
structure EventReport where
  heatwave : RunEvent
  hot_dry : FlagEvent
  comfortable : FlagEvent
  long_rain : RunEvent
  heavy_rain : DaysEvent
  showers : FlagEvent
  urban_flood_risk : FlagEvent
  strong_wind : DaysEvent
  thunderstorm : DaysEvent
  storm_risk : DaysEvent
deriving DecidableEq, Repr

/-- The loop of `_longest_run` over `zip(indices, indices[1:])`, with the
loop state `(max_len, cur_len, start, best_start, best_end)` passed
explicitly; `prev` is the last element already consumed.  The `match`
`[]` case is the code after the loop (`if cur_len > max_len`). -/
def runLoop (prev : ℤ) (rest : List ℤ)
    (maxLen curLen start bestStart bestEnd : ℤ) : ℤ × ℤ × ℤ :=
  match rest with
  | [] =>
    if maxLen < curLen then (curLen, start, start + curLen - 1)
    else (maxLen, bestStart, bestEnd)
  | cur :: rest2 =>
    if cur = prev + 1 then
      runLoop cur rest2 maxLen (curLen + 1) start bestStart bestEnd
    else if maxLen < curLen then
      runLoop cur rest2 curLen 1 cur start prev
    else
      runLoop cur rest2 maxLen 1 cur bestStart bestEnd

/-- Model of `_longest_run`: `(max_len, start_idx, end_idx)` of the longest
consecutive run in a sorted list of indices; `(0, -1, -1)` for `[]`. -/
def longest_run : List ℤ → ℤ × ℤ × ℤ
  | [] => (0, -1, -1)
  | i :: rest => runLoop i rest 1 1 i i i

/-- Model of `np.mean` on a list of rationals (all call sites pass a nonempty
list, so the `0/0` convention for `[]` is never exercised). -/
def npMean (l : List ℚ) : ℚ := l.sum / l.length

/-- Model of `max(rains) if rains else 0`. -/
def maxRain : List ℕ → ℕ
  | [] => 0
  | r :: rs => rs.foldl max r

/-- The comprehension `[i for i, a in enumerate(l) if p a]`. -/
def qualifying_indices {α : Type} (l : List α) (p : α → Bool) : List ℕ :=
  (l.enum.filter (fun q => p q.2)).map Prod.fst

/-- Model of `hot_indices` in `detect_events`: days with `temp_avg ≥ 35.0`. -/
def hot_indices (forecast : List ForecastDay) : List ℤ :=
  (qualifying_indices (forecast.map (·.temp_avg)) (fun t => decide (35 ≤ t))).map
    (fun n : ℕ => (n : ℤ))

/-- Model of `wet_indices` in `detect_events`: days with `rain_level ≥ 2`. -/
def wet_indices (forecast : List ForecastDay) : List ℤ :=
  (qualifying_indices (forecast.map (·.rain_level)) (fun r => decide (2 ≤ r))).map
    (fun n : ℕ => (n : ℤ))

/-- Model of `heavy_rain_days` in `detect_events`: days with `rain_level ≥ 3`. -/
def heavy_rain_days (forecast : List ForecastDay) : List ℕ :=
  qualifying_indices (forecast.map (·.rain_level)) (fun r => decide (3 ≤ r))

/-- Model of `strong_wind_days` in `detect_events`: days with `wind_level ≥ 2`. -/
def strong_wind_days (forecast : List ForecastDay) : List ℕ :=
  qualifying_indices (forecast.map (·.wind_level)) (fun w => decide (2 ≤ w))

/-- Model of `thunder_days` in `detect_events`: the `range(len(forecast))`
comprehension keeping days with `rains[i] ≥ 2 and winds[i] ≥ 2` (both
accesses in range since both lists have length `len(forecast)`). -/
def thunder_days (forecast : List ForecastDay) : List ℕ :=
  (List.range forecast.length).filter
    (fun i : ℕ => decide (2 ≤ (forecast.map (·.rain_level)).getD i 0) &&
      decide (2 ≤ (forecast.map (·.wind_level)).getD i 0))

/-- Model of `storm_days` in `detect_events`: days with `rains[i] ≥ 3 and
winds[i] ≥ 2`. -/
def storm_days (forecast : List ForecastDay) : List ℕ :=
  (List.range forecast.length).filter
    (fun i : ℕ => decide (3 ≤ (forecast.map (·.rain_level)).getD i 0) &&
      decide (2 ≤ (forecast.map (·.wind_level)).getD i 0))

/-- Model of `detect_events`: evaluate the ten event predicates over the decoded
forecast. -/
def detect_events (forecast : List ForecastDay) : EventReport :=
  let temps : List ℚ := forecast.map (·.temp_avg)
  let rains : List ℕ := forecast.map (·.rain_level)
  let hw := longest_run (hot_indices forecast)
  let has_heatwave : Bool := decide (3 ≤ hw.1)
  let avg_temp := npMean temps
  let max_rain := maxRain rains
  let has_hot_dry : Bool := decide (33 ≤ avg_temp) && decide (max_rain ≤ 1)
  let has_comfort : Bool :=
    decide (22 ≤ avg_temp) && decide (avg_temp ≤ 28) && decide (max_rain ≤ 1)
  let lr := longest_run (wet_indices forecast)
  let has_long_rain : Bool := decide (3 ≤ lr.1)
  let has_heavy_rain : Bool := decide (0 < (heavy_rain_days forecast).length)
  let has_showers : Bool :=
    decide (max_rain = 1) && !has_heavy_rain && !has_long_rain
  let has_strong_wind : Bool := decide (0 < (strong_wind_days forecast).length)
  let has_thunder : Bool := decide (0 < (thunder_days forecast).length)
  let has_storm_risk : Bool := decide (0 < (storm_days forecast).length)
  let urban_flood : Bool :=
    has_long_rain || decide (2 ≤ (heavy_rain_days forecast).length)
  { heatwave := ⟨has_heatwave, hw.2.1, hw.2.2⟩
    hot_dry := ⟨has_hot_dry⟩
    comfortable := ⟨has_comfort⟩
    long_rain := ⟨has_long_rain, lr.2.1, lr.2.2⟩
    heavy_rain := ⟨has_heavy_rain, heavy_rain_days forecast⟩
    showers := ⟨has_showers⟩
    urban_flood_risk := ⟨urban_flood⟩
    strong_wind := ⟨has_strong_wind, strong_wind_days forecast⟩
    thunderstorm := ⟨has_thunder, thunder_days forecast⟩
    storm_risk := ⟨has_storm_risk, storm_days forecast⟩ }

/-- Heterogeneous value of one entry of the Python event dict. -/
inductive EventValue where
  | run (has_event : Bool) (start_idx end_idx : ℤ)
  | flag (has_event : Bool)
  | days (has_event : Bool) (ds : List ℕ)
deriving DecidableEq, Repr

/-- The dict literal returned by `detect_events`, in source order. -/
def eventDict (r : EventReport) : List (String × EventValue) :=
  [("heatwave", .run r.heatwave.has_event r.heatwave.start_idx r.heatwave.end_idx),
   ("hot_dry", .flag r.hot_dry.has_event),
   ("comfortable", .flag r.comfortable.has_event),
   ("long_rain", .run r.long_rain.has_event r.long_rain.start_idx r.long_rain.end_idx),
   ("heavy_rain", .days r.heavy_rain.has_event r.heavy_rain.days),
   ("showers", .flag r.showers.has_event),
   ("urban_flood_risk", .flag r.urban_flood_risk.has_event),
   ("strong_wind", .days r.strong_wind.has_event r.strong_wind.days),
   ("thunderstorm", .days r.thunderstorm.has_event r.thunderstorm.days),
   ("storm_risk", .days r.storm_risk.has_event r.storm_risk.days)]

/-- Model of `CITY_TEMP_BIAS_BY_NAME`, the process-wide feel-like bias table. -/
def CITY_TEMP_BIAS_BY_NAME : List (String × ℚ) :=
  [("Hanoi", 2), ("Hai Phong", 2), ("Quang Ninh", 2), ("Thanh Hoa", 2),
   ("Nghe An (Vinh)", 2), ("Hue (Thua Thien Hue)", 2), ("Da Nang", 3),
   ("Binh Dinh (Quy Nhon)", 3), ("Nha Trang (Khanh Hoa)", 4),
   ("Quang Nam (Tam Ky)", 3), ("Da Lat (Lam Dong)", 1),
   ("Buon Ma Thuot (Dak Lak)", 2), ("Ho Chi Minh City", 4),
   ("Can Tho", 3), ("Ca Mau", 3)]

/-- Model of `_get_bias`: table lookup with default 3.0. -/
def get_bias (city_name : String) : ℚ :=
  (CITY_TEMP_BIAS_BY_NAME.lookup city_name).getD 3

/-- Model of `avg_temp` in `build_summary`. -/
def avg_temp_of (forecast : List ForecastDay) : ℚ :=
  npMean (forecast.map (·.temp_avg))

/-- Model of `avg_feel` in `build_summary` (`heat_index` is always present in a
decoded day, so `d.get("heat_index", d["temp_avg"])` is `d.heat_index`). -/
def avg_feel_of (city_name : String) (forecast : List ForecastDay) : ℚ :=
  npMean (forecast.map (fun d => d.heat_index + get_bias city_name))

/-- Model of `avg_wind` in `build_summary`. -/
def avg_wind_of (forecast : List ForecastDay) : ℚ :=
  npMean (forecast.map (·.wind_speed))

/-- The opening sentence of the summary. -/
def base_sentence (fmt : ℚ → String) (city_name end_date : String)
    (forecast : List ForecastDay) : String :=
  "Dự đoán cho 7 ngày sau " ++ end_date ++ ", " ++ city_name ++
  " có nhiệt độ trung bình khoảng " ++ fmt (avg_temp_of forecast) ++
  "°C, nhiệt độ cảm nhận thực tế khoảng " ++
  fmt (avg_feel_of city_name forecast) ++
  "°C, sức gió trung bình khoảng " ++ fmt (avg_wind_of forecast) ++ " km/h."

/-- The feel-like impact tier fragment (four bands on `avg_feel`). -/
def impact_fragment (avg_feel : ℚ) : String :=
  if 35 ≤ avg_feel then
    " Nhiệt độ cảm nhận ở mức rất cao, thời tiết oi bức rõ rệt, dễ gây mệt mỏi và khó chịu, tăng nguy cơ say nắng, mất nước nếu người dân phải làm việc hoặc di chuyển ngoài trời trong thời gian dài."
  else if 30 ≤ avg_feel then
    " Nhiệt độ cảm nhận khá cao, thời tiết nóng và oi, có thể gây khó chịu, làm giảm sự thoải mái khi đi lại, sinh hoạt ngoài trời và khiến nhu cầu sử dụng điều hòa, quạt tăng lên."
  else if 24 ≤ avg_feel then
    " Nhiệt độ cảm nhận ở mức tương đối dễ chịu, nhìn chung phù hợp cho các hoạt động sinh hoạt, làm việc và vui chơi ngoài trời nếu không có mưa lớn hoặc gió mạnh đi kèm."
  else
    " Nhiệt độ cảm nhận khá mát đến hơi lạnh, người dân nên chuẩn bị trang phục đủ ấm khi ra ngoài vào buổi sáng sớm hoặc tối muộn."

/-- The `storm_risk` rain fragment, around the date of the first storm day. -/
def storm_text (d : String) : String :=
  " Ngoài ra, mô hình cho thấy khả năng xuất hiện mưa to kèm gió mạnh vào khoảng ngày " ++ d ++ ", dễ gây ngập lụt nhanh trên đường phố, ảnh hưởng mạnh đến việc di chuyển, buôn bán và các hoạt động ngoài trời."

/-- The `urban_flood_risk` fragment when `long_rain` also holds. -/
def flood_long_text (d1 d2 : String) : String :=
  " Một đợt mưa vừa đến mưa to kéo dài từ khoảng ngày " ++ d1 ++ " đến " ++ d2 ++ " có thể gây ngập úng cục bộ, làm tăng nguy cơ kẹt xe, gián đoạn hoạt động kinh doanh nhỏ và khiến sinh hoạt hằng ngày trở nên bất tiện."

/-- The generic `urban_flood_risk` fragment. -/
def flood_generic_text : String :=
  " Lượng mưa tích lũy trong nhiều ngày tương đối lớn, làm tăng khả năng ngập úng ở những khu vực trũng thấp, người dân nên chủ động theo dõi tình hình để điều chỉnh kế hoạch đi lại."

/-- The `long_rain` fragment over the detected span. -/
def long_rain_text (d1 d2 : String) : String :=
  " Dự báo có một đợt mưa kéo dài từ khoảng ngày " ++ d1 ++ " đến " ++ d2 ++ ", có thể làm đường sá trơn trượt, giảm tầm nhìn khi di chuyển và khiến các hoạt động vui chơi, buôn bán ngoài trời bị hạn chế."

/-- The `heavy_rain` fragment, around the date of the first heavy day. -/
def heavy_rain_text (d : String) : String :=
  " Một số thời điểm có thể xuất hiện mưa to vào khoảng ngày " ++ d ++ ", gây nguy cơ ngập cục bộ tại các điểm trũng và làm chậm trễ lịch trình đi lại, giao nhận hàng hóa."

/-- The `showers` fragment. -/
def showers_text : String :=
  " Thỉnh thoảng có thể xuất hiện mưa rào, mưa vừa rải rác nhưng không kéo dài; những cơn mưa này chủ yếu làm dịu bớt cảm giác nóng trong thời gian ngắn, song cũng có thể gây gián đoạn tạm thời cho các hoạt động ngoài trời như đi dạo, thể dục hoặc mua sắm."

/-- The `thunderstorm` extra-details fragment. -/
def thunder_text (d : String) : String :=
  " Một số thời điểm, đặc biệt khoảng ngày " ++ d ++ ", có thể xuất hiện giông sét, người dân nên hạn chế đứng dưới cây cao hoặc ở khu vực trống trải để đảm bảo an toàn."

/-- The `strong_wind` extra-details fragment. -/
def wind_text (d : String) : String :=
  " Gió đôi lúc thổi khá mạnh vào khoảng ngày " ++ d ++ ", có thể gây khó khăn cho việc di chuyển bằng xe máy hoặc tàu thuyền nhỏ, người dân nên chú ý giữ thăng bằng và cố định các vật dụng dễ bay."

/-- The fixed fragment used when no rain/thunder/wind event holds. -/
def no_event_text : String :=
  " Không có dấu hiệu rõ rệt của các hiện tượng thời tiết cực đoan, tác động bất lợi đến sinh hoạt hằng ngày và sức khỏe người dân được đánh giá ở mức thấp."

/-- Python list indexing `l[i]` for a possibly negative `int` index:
wraps once from the end, raises (`none`) when out of range. -/
def pyIdx {α : Type} (l : List α) (i : ℤ) : Option α :=
  if 0 ≤ i then l.get? i.toNat
  else if 0 ≤ i + l.length then l.get? (i + (l.length : ℤ)).toNat
  else none

/-- The rain-related `if`/`elif` chain of `build_summary`; `some ""`
when no branch applies, `none` when Python would raise `IndexError`. -/
def rain_fragment (forecast : List ForecastDay) (events : EventReport) :
    Option String :=
  if events.storm_risk.has_event then do
    let idx ← events.storm_risk.days.head?
    let d ← forecast.get? idx
    pure (storm_text d.date)
  else if events.urban_flood_risk.has_event then
    if events.long_rain.has_event then do
      let d1 ← pyIdx forecast events.long_rain.start_idx
      let d2 ← pyIdx forecast events.long_rain.end_idx
      pure (flood_long_text d1.date d2.date)
    else
      pure flood_generic_text
  else if events.long_rain.has_event then do
    let d1 ← pyIdx forecast events.long_rain.start_idx
    let d2 ← pyIdx forecast events.long_rain.end_idx
    pure (long_rain_text d1.date d2.date)
  else if events.heavy_rain.has_event then do
    let d ← events.heavy_rain.days.head?
    let fd ← forecast.get? d
    pure (heavy_rain_text fd.date)
  else if events.showers.has_event then
    pure showers_text
  else
    pure ""

/-- The thunderstorm extra-details branch of `build_summary`. -/
def thunder_fragment (forecast : List ForecastDay) (events : EventReport) :
    Option String :=
  if events.thunderstorm.has_event && !events.storm_risk.has_event then do
    let idx ← events.thunderstorm.days.head?
    let fd ← forecast.get? idx
    pure (thunder_text fd.date)
  else
    pure ""

/-- The strong-wind extra-details branch of `build_summary`. -/
def wind_fragment (forecast : List ForecastDay) (events : EventReport) :
    Option String :=
  if events.strong_wind.has_event && !events.storm_risk.has_event then do
    let idx ← events.strong_wind.days.head?
    let fd ← forecast.get? idx
    pure (wind_text fd.date)
  else
    pure ""

/-- The final "nothing remarkable" branch of `build_summary`. -/
def no_event_fragment (events : EventReport) : String :=
  if !events.storm_risk.has_event && !events.urban_flood_risk.has_event &&
     !events.long_rain.has_event && !events.heavy_rain.has_event &&
     !events.showers.has_event && !events.thunderstorm.has_event &&
     !events.strong_wind.has_event then
    no_event_text
  else ""

/-- Model of `build_summary`: the one-paragraph summary, assembled by sequential
appends exactly as in the source; `none` when Python would raise. -/
def build_summary (fmt : ℚ → String) (city_name end_date : String)
    (forecast : List ForecastDay) (events : EventReport) : Option String := do
  let r ← rain_fragment forecast events
  let t ← thunder_fragment forecast events
  let w ← wind_fragment forecast events
  pure (base_sentence fmt city_name end_date forecast ++
    impact_fragment (avg_feel_of city_name forecast) ++
    r ++ t ++ w ++ no_event_fragment events)

/-- Model of `HORIZON`: forecast days per request. -/
def HORIZON : ℕ := 7

/-- Model of `WINDOW`: trailing historical days fed to the model. -/
def WINDOW : ℕ := 60

/-- One future calendar date handed to the decoder: its rendered
`strftime("%Y-%m-%d")` form and its Python `weekday()` (Monday = 0). -/
structure FutureDate where
  dateStr : String
  weekday : ℕ
deriving DecidableEq, Repr

/-- Model of `_vn_day_name`: fixed 7-entry weekday label cycle, `""` out of range. -/
def vn_day_name (idx : ℕ) : String :=
  (["T2", "T3", "T4", "T5", "T6", "T7", "CN"].get? idx).getD ""

/-- Model of `np.argmax` over one class-probability row: index of the first
occurrence of the maximum (a later value replaces only if strictly
greater). -/
def npArgmax (l : List ℚ) : ℕ :=
  (l.enum.foldl (fun best p => if best.2 < p.2 then p else best)
    (0, l.headD 0)).1

/-- The loop body of `_run_model_and_decode` for day `i`: build the
day's dict from `future_dates[i]`, `temp[i]`, `wind[i]`,
`rain_class[i]`, `wind_class[i]` (`heat_index` and `temp_avg` both take
the decoded temperature); `none` when an `[i]` access would raise. -/
def decode_day (temp wind : List ℚ) (rain_class wind_class : List ℕ)
    (future_dates : List FutureDate) (i : ℕ) : Option ForecastDay := do
  let d ← future_dates.get? i
  let hi ← temp.get? i
  let ws ← wind.get? i
  let rc ← rain_class.get? i
  let wc ← wind_class.get? i
  pure (ForecastDay.mk d.dateStr (vn_day_name d.weekday) hi hi ws rc wc)

/-- Model of `_run_model_and_decode`: per-day argmax over both class-probability
arrays, then the day loop over `range(HORIZON)`. -/
def run_model_and_decode (temp wind : List ℚ) (rain_lvl wind_lvl : List (List ℚ))
    (future_dates : List FutureDate) : Option (List ForecastDay) :=
  let rain_class := rain_lvl.map npArgmax
  let wind_class := wind_lvl.map npArgmax
  (List.range HORIZON).mapM (decode_day temp wind rain_class wind_class future_dates)

/-- One row of the climate table: calendar date (as a day number), city,
and the named numeric feature columns. -/
structure HistRow where
  date : ℤ
  city : String
  vals : List (String × ℚ)
deriving DecidableEq, Repr

/-- The per-city scaler: its fitted feature-name list and its row-wise
transform (`MinMaxScaler.transform` maps each row independently). -/
structure CityScaler where
  feature_names : List String
  transform_row : List ℚ → List ℚ

/-- The distinct `ValueError`s `_build_input_window` can raise. -/
inductive WindowError where
  | dataUnavailable
  | noScaler
  | missingFeatureColumns
deriving DecidableEq, Repr

/-- The city/date filter and ascending date sort of `_build_input_window`
(`df[(df.City == city) & (df.Date <= end)].sort_values(Date)`). -/
def kept_rows (rows : List HistRow) (city_name : String) (end_date : ℤ) :
    List HistRow :=
  List.insertionSort (fun a b => a.date ≤ b.date)
    (rows.filter (fun r => decide (r.city = city_name) && decide (r.date ≤ end_date)))

/-- Model of `window_df[feature_cols]` for one row: the feature columns in scaler
order (every column is present in a pandas row, hence the harmless
default). -/
def row_features (cols : List String) (r : HistRow) : List ℚ :=
  cols.map (fun c => (r.vals.lookup c).getD 0)

/-- Model of `_build_input_window`: filter and sort the city's history, take the
trailing `WINDOW` rows, scale, and left-pad with repeats of the earliest
scaled row up to `WINDOW` rows.  (The final `reshape(1, WINDOW, -1)`
only adds the batch axis and is dropped here.) -/
def build_input_window (scalers : List (String × CityScaler))
    (table_cols : List String) (rows : List HistRow)
    (city_name : String) (end_date : ℤ) :
    Except WindowError (List (List ℚ)) :=
  let df_city := kept_rows rows city_name end_date
  if df_city.isEmpty then .error .dataUnavailable
  else
    let window_df :=
      if WINDOW ≤ df_city.length then df_city.drop (df_city.length - WINDOW)
      else df_city
    match scalers.lookup city_name with
    | none => .error .noScaler
    | some scaler =>
      if (scaler.feature_names.filter (fun c => !table_cols.contains c)).isEmpty then
        let X_raw := window_df.map (row_features scaler.feature_names)
        let X_scaled := X_raw.map scaler.transform_row
        if X_scaled.length < WINDOW then
          .ok (List.replicate (WINDOW - X_scaled.length) (X_scaled.headD []) ++
            X_scaled)
        else .ok X_scaled
      else .error .missingFeatureColumns

/-- Specification-side decomposition of an index list into its runs of
consecutive (step exactly 1) indices, in scan order. -/
def specRuns : List ℤ → List (List ℤ)
  | [] => []
  | [x] => [[x]]
  | x :: y :: ys =>
    match specRuns (y :: ys) with
    | [] => [[x]]
    | g :: gs => if y = x + 1 then (x :: g) :: gs else [x] :: g :: gs

/-- Specification-side tie-break: the first group of maximal length
encountered scanning left-to-right (a later group replaces the incumbent
only when strictly longer). -/
def specFirstMax (gs : List (List ℤ)) : List ℤ :=
  match gs with
  | [] => []
  | g :: rest => rest.foldl (fun b c => if b.length < c.length then c else b) g

/-- The `(length, start, end)` triple of one run. -/
def runTriple (g : List ℤ) : ℤ × ℤ × ℤ :=
  ((g.length : ℤ), g.headD 0, g.getLastD 0)

/-- Fold an incumbent best triple over candidate triples, replacing only
on strictly greater length (the loop's update policy). -/
def pickBest (b : ℤ × ℤ × ℤ) (cs : List (ℤ × ℤ × ℤ)) : ℤ × ℤ × ℤ :=
  cs.foldl (fun b c => if b.1 < c.1 then c else b) b

/-- Candidate triples seen by the loop from mid-scan state: the first
run is still being extended (`curLen - 1` of it already consumed). -/
def extendHead (curLen start : ℤ) : List (List ℤ) → List (ℤ × ℤ × ℤ)
  | [] => []
  | g :: gs => (curLen - 1 + g.length, start, g.getLastD 0) :: gs.map runTriple

/-- The summary text accumulated before the rain refinement: base
sentence plus feel-like impact tier. -/
def pre_rain_text (fmt : ℚ → String) (city_name end_date : String)
    (f : List ForecastDay) : String :=
  base_sentence fmt city_name end_date f ++
    impact_fragment (avg_feel_of city_name f)

/-- Concrete 7-day forecast for witnesses: day 2 has rain level 3 and
wind level 2 (a storm/thunder day), all other days calm. -/
def wit_forecast : List ForecastDay :=
  [⟨"2024-01-02", "T3", 25, 25, 10, 0, 0⟩,
   ⟨"2024-01-03", "T4", 25, 25, 10, 0, 0⟩,
   ⟨"2024-01-04", "T5", 25, 25, 10, 3, 2⟩,
   ⟨"2024-01-05", "T6", 25, 25, 10, 0, 0⟩,
   ⟨"2024-01-06", "T7", 25, 25, 10, 0, 0⟩,
   ⟨"2024-01-07", "CN", 25, 25, 10, 0, 0⟩,
   ⟨"2024-01-08", "T2", 25, 25, 10, 0, 0⟩]

/-- Concrete forecast whose hottest run is only 2 days long. -/
def wit_heat2 : List ForecastDay :=
  [⟨"d0", "T2", 36, 36, 10, 0, 0⟩,
   ⟨"d1", "T3", 36, 36, 10, 0, 0⟩,
   ⟨"d2", "T4", 20, 20, 10, 0, 0⟩,
   ⟨"d3", "T5", 20, 20, 10, 0, 0⟩,
   ⟨"d4", "T6", 20, 20, 10, 0, 0⟩,
   ⟨"d5", "T7", 20, 20, 10, 0, 0⟩,
   ⟨"d6", "CN", 20, 20, 10, 0, 0⟩]

/-- Trivial numeric formatter used by witnesses. -/
def fmt0 : ℚ → String := fun _ => ""

/-- Specification-side: `k` is an argmax of `l` and ties resolve to the
lowest class index (all strictly earlier entries are strictly smaller). -/
def isFirstArgmax (l : List ℚ) (k : ℕ) : Prop :=
  k < l.length ∧ (∀ j < l.length, l.getD j 0 ≤ l.getD k 0) ∧
    ∀ j < k, l.getD j 0 < l.getD k 0

/-- Concrete decoder inputs for the C5 witness; the rain distribution
rows have a tie between classes 1 and 2. -/
def wit_temp : List ℚ := [30, 30, 30, 30, 30, 30, 30]

/-- Concrete continuous wind-speed head output for the C5 witness. -/
def wit_windspeed : List ℚ := [10, 10, 10, 10, 10, 10, 10]

/-- Tied rain-class rows for the C5 witness (argmax must pick index 1). -/
def wit_rain_probs : List (List ℚ) := List.replicate 7 [0, 3, 3, 1, 0]

/-- Wind-class rows for the C5 witness. -/
def wit_wind_probs : List (List ℚ) := List.replicate 7 [5, 1, 1, 1, 1]

/-- Future dates for the C5 witness. -/
def wit_dates : List FutureDate :=
  [⟨"2024-01-02", 1⟩, ⟨"2024-01-03", 2⟩, ⟨"2024-01-04", 3⟩,
   ⟨"2024-01-05", 4⟩, ⟨"2024-01-06", 5⟩, ⟨"2024-01-07", 6⟩,
   ⟨"2024-01-08", 0⟩]

/-- Ten-row history (dates 0..9) for the window-builder witnesses. -/
def wit_rows : List HistRow :=
  (List.range 10).map (fun i => ⟨(i : ℤ), "Hanoi", [("f1", (i : ℚ))]⟩)

/-- Identity scaler over one feature column, for the C1 witness (with it
the pre-scaling and post-scaling windows coincide literally). -/
def wit_scaler : CityScaler := ⟨["f1"], fun r => r⟩

/-- One-feature scaler meeting the `[W, F]` output-shape contract, for
the C8 witness. -/
def wit_scaler1 : CityScaler := ⟨["f1"], fun r => [r.headD 0]⟩

lemma specRuns_cons_cons (x y : ℤ) (ys : List ℤ) (g : List ℤ) (gs : List (List ℤ))
    (h : specRuns (y :: ys) = g :: gs) :
    specRuns (x :: y :: ys) =
      if y = x + 1 then (x :: g) :: gs else [x] :: g :: gs := by
  show (match specRuns (y :: ys) with
        | [] => [[x]]
        | g :: gs => if y = x + 1 then (x :: g) :: gs else [x] :: g :: gs) = _
  rw [h]

lemma specRuns_shape (x : ℤ) (xs : List ℤ) :
    ∃ t gs, specRuns (x :: xs) = (x :: t) :: gs := by
  induction xs generalizing x with
  | nil => exact ⟨[], [], rfl⟩
  | cons y ys ih =>
    obtain ⟨t, gs, h⟩ := ih y
    by_cases hc : y = x + 1
    · exact ⟨y :: t, gs, by rw [specRuns_cons_cons x y ys _ _ h, if_pos hc]⟩
    · exact ⟨[], (y :: t) :: gs, by rw [specRuns_cons_cons x y ys _ _ h, if_neg hc]⟩

lemma getLastD_cons_ne {α : Type} (a b : α) (t : List α) (d d' : α) :
    (a :: b :: t).getLastD d = (b :: t).getLastD d' := by
  induction t generalizing a b with
  | nil => rfl
  | cons c cs ih => exact ih b c

lemma extendHead_full (start : ℤ) (g : List ℤ) (gs : List (List ℤ))
    (hg : g.headD 0 = start) (hne : g ≠ []) :
    extendHead 1 start (g :: gs) = (g :: gs).map runTriple := by
  obtain ⟨b, bs, rfl⟩ := List.exists_cons_of_ne_nil hne
  simp only [extendHead, List.map_cons, runTriple]
  have hA : (1 : ℤ) - 1 + (((b :: bs) : List ℤ).length : ℤ) =
      (((b :: bs) : List ℤ).length : ℤ) := by ring
  rw [hA, hg]

lemma pickBest_cons (b c : ℤ × ℤ × ℤ) (cs : List (ℤ × ℤ × ℤ)) :
    pickBest b (c :: cs) = pickBest (if b.1 < c.1 then c else b) cs := by
  simp only [pickBest, List.foldl_cons]

lemma runLoop_eq (rest : List ℤ) :
    ∀ (prev maxLen curLen start bestStart bestEnd : ℤ),
    prev = start + curLen - 1 →
    runLoop prev rest maxLen curLen start bestStart bestEnd =
      pickBest (maxLen, bestStart, bestEnd)
        (extendHead curLen start (specRuns (prev :: rest))) := by
  induction rest with
  | nil =>
    intro prev maxLen curLen start bestStart bestEnd hprev
    have hlast : ([prev] : List ℤ).getLastD 0 = prev := rfl
    have hlist : extendHead curLen start (specRuns [prev]) = [(curLen, start, prev)] := by
      show extendHead curLen start [[prev]] = _
      simp only [extendHead, List.map_nil]
      have hA : curLen - 1 + (([prev] : List ℤ).length : ℤ) = curLen := by
        simp only [List.length_cons, List.length_nil]
        push_cast
        ring
      rw [hA, hlast]
    rw [hlist]
    show (if maxLen < curLen then (curLen, start, start + curLen - 1)
          else (maxLen, bestStart, bestEnd)) =
        if maxLen < curLen then (curLen, start, prev) else (maxLen, bestStart, bestEnd)
    rw [hprev]
  | cons cur rest2 ih =>
    intro prev maxLen curLen start bestStart bestEnd hprev
    obtain ⟨t, gs, hshape⟩ := specRuns_shape cur rest2
    by_cases hc : cur = prev + 1
    · have h1 : runLoop prev (cur :: rest2) maxLen curLen start bestStart bestEnd =
          runLoop cur rest2 maxLen (curLen + 1) start bestStart bestEnd := by
        simp [runLoop, hc]
      rw [h1, ih cur maxLen (curLen + 1) start bestStart bestEnd (by omega)]
      have h2 : specRuns (prev :: cur :: rest2) = (prev :: cur :: t) :: gs := by
        rw [specRuns_cons_cons prev cur rest2 _ _ hshape, if_pos hc]
      rw [h2, hshape]
      have hext : extendHead curLen start ((prev :: cur :: t) :: gs) =
          extendHead (curLen + 1) start ((cur :: t) :: gs) := by
        simp only [extendHead]
        have hA : curLen - 1 + (((prev :: cur :: t) : List ℤ).length : ℤ) =
            curLen + 1 - 1 + (((cur :: t) : List ℤ).length : ℤ) := by
          simp only [List.length_cons]
          push_cast
          ring
        rw [hA, getLastD_cons_ne prev cur t 0 0]
      rw [hext]
    · have h2 : specRuns (prev :: cur :: rest2) = [prev] :: (cur :: t) :: gs := by
        rw [specRuns_cons_cons prev cur rest2 _ _ hshape, if_neg hc]
      rw [h2]
      have hlast : ([prev] : List ℤ).getLastD 0 = prev := rfl
      have hstep : extendHead curLen start ([prev] :: (cur :: t) :: gs) =
          (curLen, start, prev) :: ((cur :: t) :: gs).map runTriple := by
        simp only [extendHead]
        have hA : curLen - 1 + (([prev] : List ℤ).length : ℤ) = curLen := by
          simp only [List.length_cons, List.length_nil]
          push_cast
          ring
        rw [hA, hlast]
      rw [hstep]
      have hfold : pickBest (maxLen, bestStart, bestEnd)
          ((curLen, start, prev) :: ((cur :: t) :: gs).map runTriple) =
          pickBest (if maxLen < curLen then (curLen, start, prev)
            else (maxLen, bestStart, bestEnd))
            (((cur :: t) :: gs).map runTriple) :=
        pickBest_cons _ _ _
      rw [hfold]
      have hfullext : extendHead 1 cur (specRuns (cur :: rest2)) =
          (specRuns (cur :: rest2)).map runTriple := by
        rw [hshape]
        exact extendHead_full cur (cur :: t) gs rfl (by simp)
      by_cases hm : maxLen < curLen
      · have h1 : runLoop prev (cur :: rest2) maxLen curLen start bestStart bestEnd =
            runLoop cur rest2 curLen 1 cur start prev := by
          simp [runLoop, hc, hm]
        rw [h1, ih cur curLen 1 cur start prev (by omega), hfullext, hshape,
          if_pos hm]
      · have h1 : runLoop prev (cur :: rest2) maxLen curLen start bestStart bestEnd =
            runLoop cur rest2 maxLen 1 cur bestStart bestEnd := by
          simp [runLoop, hc, hm]
        rw [h1, ih cur maxLen 1 cur bestStart bestEnd (by omega), hfullext, hshape,
          if_neg hm]

lemma pickBest_map (g : List ℤ) (gs : List (List ℤ)) :
    pickBest (runTriple g) (gs.map runTriple) =
      runTriple (gs.foldl (fun b c => if b.length < c.length then c else b) g) := by
  induction gs generalizing g with
  | nil => rfl
  | cons c cs ih =>
    simp only [List.map_cons, pickBest, List.foldl]
    have hcond : ((runTriple g).1 < (runTriple c).1) ↔ (g.length < c.length) := by
      simp [runTriple]
    by_cases h : g.length < c.length
    · rw [if_pos (hcond.mpr h), if_pos h]
      exact ih c
    · rw [if_neg (fun hh => h (hcond.mp hh)), if_neg h]
      exact ih g

lemma pickBest_cons_absorb (c : ℤ × ℤ × ℤ) (cs : List (ℤ × ℤ × ℤ)) (b : ℤ × ℤ × ℤ)
    (h : (if b.1 < c.1 then c else b) = c) :
    pickBest b (c :: cs) = pickBest c cs := by
  simp only [pickBest, List.foldl_cons, h]

lemma longest_run_eq (x : ℤ) (xs : List ℤ) :
    longest_run (x :: xs) = runTriple (specFirstMax (specRuns (x :: xs))) := by
  obtain ⟨t, gs, hshape⟩ := specRuns_shape x xs
  have h1 : longest_run (x :: xs) = runLoop x xs 1 1 x x x := rfl
  rw [h1, runLoop_eq xs x 1 1 x x x (by omega)]
  have hfullext : extendHead 1 x (specRuns (x :: xs)) =
      (specRuns (x :: xs)).map runTriple := by
    rw [hshape]
    exact extendHead_full x (x :: t) gs rfl (by simp)
  rw [hfullext, hshape, List.map_cons]
  have habsorb : (if ((1 : ℤ), x, x).1 < (runTriple (x :: t)).1 then runTriple (x :: t)
      else ((1 : ℤ), x, x)) = runTriple (x :: t) := by
    cases t with
    | nil =>
      have hge : ¬(((1 : ℤ), x, x).1 < (runTriple [x]).1) := by
        show ¬((1 : ℤ) < (([x] : List ℤ).length : ℤ))
        simp
      rw [if_neg hge]
      rfl
    | cons b bs =>
      have hlt : ((1 : ℤ), x, x).1 < (runTriple (x :: b :: bs)).1 := by
        show (1 : ℤ) < (((x :: b :: bs) : List ℤ).length : ℤ)
        simp only [List.length_cons]
        push_cast
        omega
      rw [if_pos hlt]
  rw [pickBest_cons_absorb _ _ _ habsorb, pickBest_map]
  rfl

lemma specRuns_mem_sub : ∀ (l : List ℤ), ∀ g ∈ specRuns l, ∀ a ∈ g, a ∈ l := by
  intro l
  match l with
  | [] => simp [specRuns]
  | [x] => simp [specRuns]
  | x :: y :: ys =>
    obtain ⟨t, gs, hshape⟩ := specRuns_shape y ys
    have ih := specRuns_mem_sub (y :: ys)
    rw [hshape] at ih
    intro g hg a ha
    simp only [specRuns, hshape] at hg
    by_cases hc : y = x + 1
    · rw [if_pos hc] at hg
      rcases List.mem_cons.mp hg with h | h
      · subst h
        rcases List.mem_cons.mp ha with h' | h'
        · simp [h']
        · have := ih (y :: t) (List.mem_cons_self _ _) a h'
          simp [List.mem_cons] at this ⊢
          tauto
      · have := ih g (List.mem_cons_of_mem _ h) a ha
        simp [List.mem_cons] at this ⊢
        tauto
    · rw [if_neg hc] at hg
      rcases List.mem_cons.mp hg with h | h
      · subst h
        simp only [List.mem_singleton] at ha
        simp [ha]
      · have := ih g h a ha
        simp [List.mem_cons] at this ⊢
        tauto

lemma specRuns_mem_ne_nil : ∀ (l : List ℤ), ∀ g ∈ specRuns l, g ≠ [] := by
  intro l
  match l with
  | [] => simp [specRuns]
  | [x] => simp [specRuns]
  | x :: y :: ys =>
    obtain ⟨t, gs, hshape⟩ := specRuns_shape y ys
    have ih := specRuns_mem_ne_nil (y :: ys)
    rw [hshape] at ih
    intro g hg
    simp only [specRuns, hshape] at hg
    by_cases hc : y = x + 1
    · rw [if_pos hc] at hg
      rcases List.mem_cons.mp hg with h | h
      · subst h
        simp
      · exact ih g (List.mem_cons_of_mem _ h)
    · rw [if_neg hc] at hg
      rcases List.mem_cons.mp hg with h | h
      · subst h
        simp
      · exact ih g h

lemma foldl_pick_mem (gs : List (List ℤ)) :
    ∀ g : List ℤ,
      gs.foldl (fun b c => if b.length < c.length then c else b) g ∈ g :: gs := by
  induction gs with
  | nil => intro g; simp
  | cons c cs ih =>
    intro g
    simp only [List.foldl]
    by_cases h : g.length < c.length
    · rw [if_pos h]
      have := ih c
      simp only [List.mem_cons] at this ⊢
      tauto
    · rw [if_neg h]
      have := ih g
      simp only [List.mem_cons] at this ⊢
      tauto

lemma specFirstMax_mem (g : List ℤ) (gs : List (List ℤ)) :
    specFirstMax (g :: gs) ∈ g :: gs :=
  foldl_pick_mem gs g

lemma headD_mem {α : Type} (a : α) (t : List α) (d : α) :
    (a :: t).headD d ∈ a :: t := by
  simp [List.headD]

lemma getLastD_mem {α : Type} (a : α) (t : List α) (d : α) :
    (a :: t).getLastD d ∈ a :: t := by
  induction t generalizing a with
  | nil => simp [List.getLastD]
  | cons b bs ih =>
    have h := ih b
    rw [getLastD_cons_ne a b bs d d]
    simp only [List.mem_cons] at h ⊢
    tauto

/-- For a nonempty index list, the start and end indices returned by
`longest_run` are elements of the list. -/
lemma longest_run_mem (x : ℤ) (xs : List ℤ) :
    (longest_run (x :: xs)).2.1 ∈ x :: xs ∧ (longest_run (x :: xs)).2.2 ∈ x :: xs := by
  rw [longest_run_eq]
  obtain ⟨t, gs, hshape⟩ := specRuns_shape x xs
  have hmem : specFirstMax (specRuns (x :: xs)) ∈ specRuns (x :: xs) := by
    rw [hshape]
    exact specFirstMax_mem _ _
  have hne : specFirstMax (specRuns (x :: xs)) ≠ [] :=
    specRuns_mem_ne_nil _ _ hmem
  have hsub := specRuns_mem_sub (x :: xs) _ hmem
  obtain ⟨b, bs, hg⟩ := List.exists_cons_of_ne_nil hne
  rw [hg] at hsub
  constructor
  · exact hsub _ (by rw [runTriple, hg]; exact headD_mem b bs 0)
  · exact hsub _ (by rw [runTriple, hg]; exact getLastD_mem b bs 0)

lemma qualifying_indices_lt {α : Type} (l : List α) (p : α → Bool) :
    ∀ i ∈ qualifying_indices l p, i < l.length := by
  intro i hi
  have hsub : List.Sublist ((l.enum.filter (fun q => p q.2)).map Prod.fst)
      (l.enum.map Prod.fst) :=
    (List.filter_sublist _).map _
  have hmem : i ∈ l.enum.map Prod.fst := hsub.subset hi
  rw [List.enum_map_fst] at hmem
  exact List.mem_range.mp hmem

lemma qualifying_indices_nil_iff {α : Type} (l : List α) (p : α → Bool) :
    qualifying_indices l p = [] ↔ ∀ a ∈ l, ¬(p a = true) := by
  unfold qualifying_indices
  rw [List.map_eq_nil_iff, List.filter_eq_nil_iff]
  constructor
  · intro h a ha
    have : a ∈ l.enum.map Prod.snd := by rw [List.enum_map_snd]; exact ha
    obtain ⟨q, hq, rfl⟩ := List.mem_map.mp this
    exact h q hq
  · intro h q hq
    have : q.2 ∈ l.enum.map Prod.snd := List.mem_map_of_mem _ hq
    rw [List.enum_map_snd] at this
    exact h q.2 this

lemma cast_list_nonneg (l : List ℕ) :
    ∀ a ∈ l.map (fun n : ℕ => (n : ℤ)), 0 ≤ a := by
  intro a ha
  obtain ⟨n, _, rfl⟩ := List.mem_map.mp ha
  exact Int.ofNat_nonneg n

lemma cast_list_lt (l : List ℕ) (L : ℕ) (h : ∀ n ∈ l, n < L) :
    ∀ a ∈ l.map (fun n : ℕ => (n : ℤ)), a < (L : ℤ) := by
  intro a ha
  obtain ⟨n, hn, rfl⟩ := List.mem_map.mp ha
  exact_mod_cast h n hn

/-- C2: for every sorted list of day-indices, `longest_run` returns the
`(length, start, end)` triple of the first (scanning left-to-right)
maximal run of consecutive indices, where `specRuns` is the run
decomposition and `specFirstMax` keeps the incumbent on ties; the empty
list yields `(0, -1, -1)`. -/
theorem longest_run_first_maximal (l : List ℤ)
    (hsorted : l.Chain' (fun a b => a < b)) :
    (l = [] → longest_run l = (0, -1, -1)) ∧
    (l ≠ [] → longest_run l = runTriple (specFirstMax (specRuns l))) := by
  constructor
  · intro h
    subst h
    rfl
  · intro h
    obtain ⟨x, xs, rfl⟩ := List.exists_cons_of_ne_nil h
    exact longest_run_eq x xs

/-- C2 witness: the empty list and the two-runs-of-three tie-break
example `[0,1,2,4,5,6] ↦ (3, 0, 2)` (the first maximal run, not
`(3, 4, 6)`). -/
theorem longest_run_first_maximal_witness :
    longest_run [] = (0, -1, -1) ∧
    longest_run [0, 1, 2, 4, 5, 6] = (3, 0, 2) ∧
    runTriple (specFirstMax (specRuns [0, 1, 2, 4, 5, 6])) = (3, 0, 2) := by
  refine ⟨(longest_run_first_maximal [] (by simp)).1 rfl, ?_, by decide⟩
  have h := (longest_run_first_maximal [0, 1, 2, 4, 5, 6]
    (by norm_num [List.chain'_cons])).2 (by decide)
  rw [h]
  decide

lemma heatwave_start_eq (f : List ForecastDay) :
    (detect_events f).heatwave.start_idx = (longest_run (hot_indices f)).2.1 := rfl

lemma heatwave_end_eq (f : List ForecastDay) :
    (detect_events f).heatwave.end_idx = (longest_run (hot_indices f)).2.2 := rfl

lemma heatwave_has_eq (f : List ForecastDay) :
    (detect_events f).heatwave.has_event =
      decide (3 ≤ (longest_run (hot_indices f)).1) := rfl

lemma long_rain_start_eq (f : List ForecastDay) :
    (detect_events f).long_rain.start_idx = (longest_run (wet_indices f)).2.1 := rfl

lemma long_rain_end_eq (f : List ForecastDay) :
    (detect_events f).long_rain.end_idx = (longest_run (wet_indices f)).2.2 := rfl

lemma long_rain_has_eq (f : List ForecastDay) :
    (detect_events f).long_rain.has_event =
      decide (3 ≤ (longest_run (wet_indices f)).1) := rfl

lemma storm_days_eq (f : List ForecastDay) :
    (detect_events f).storm_risk.days = storm_days f := rfl

lemma storm_has_eq (f : List ForecastDay) :
    (detect_events f).storm_risk.has_event =
      decide (0 < (storm_days f).length) := rfl

lemma thunder_days_eq (f : List ForecastDay) :
    (detect_events f).thunderstorm.days = thunder_days f := rfl

lemma thunder_has_eq (f : List ForecastDay) :
    (detect_events f).thunderstorm.has_event =
      decide (0 < (thunder_days f).length) := rfl

lemma strong_wind_days_eq (f : List ForecastDay) :
    (detect_events f).strong_wind.days = strong_wind_days f := rfl

lemma strong_wind_has_eq (f : List ForecastDay) :
    (detect_events f).strong_wind.has_event =
      decide (0 < (strong_wind_days f).length) := rfl

lemma heavy_rain_days_eq (f : List ForecastDay) :
    (detect_events f).heavy_rain.days = heavy_rain_days f := rfl

lemma heavy_rain_has_eq (f : List ForecastDay) :
    (detect_events f).heavy_rain.has_event =
      decide (0 < (heavy_rain_days f).length) := rfl

lemma flood_has_eq (f : List ForecastDay) :
    (detect_events f).urban_flood_risk.has_event =
      (decide (3 ≤ (longest_run (wet_indices f)).1) ||
       decide (2 ≤ (heavy_rain_days f).length)) := rfl

lemma qualifying_indices_map_nil_iff {α β : Type} (l : List α) (g : α → β)
    (p : β → Bool) :
    qualifying_indices (l.map g) p = [] ↔ ∀ a ∈ l, ¬(p (g a) = true) := by
  rw [qualifying_indices_nil_iff]
  simp [List.mem_map]

lemma longest_run_cast_span_iff (l : List ℕ) :
    ((longest_run (l.map (fun n : ℕ => (n : ℤ)))).2.1 = -1 ∧
     (longest_run (l.map (fun n : ℕ => (n : ℤ)))).2.2 = -1) ↔ l = [] := by
  cases l with
  | nil => simp [longest_run]
  | cons n ns =>
    simp only [List.map_cons]
    constructor
    · intro h
      have hmem := (longest_run_mem ((n : ℕ) : ℤ) (ns.map (fun n : ℕ => (n : ℤ)))).1
      have hnn : 0 ≤ (longest_run (((n : ℕ) : ℤ) :: ns.map (fun n : ℕ => (n : ℤ)))).2.1 := by
        have hall := cast_list_nonneg (n :: ns)
        simp only [List.map_cons] at hall
        exact hall _ hmem
      omega
    · intro h
      exact (List.cons_ne_nil n ns h).elim

/-- C10: the heatwave and long-rain records always carry their run span,
and the span is `(-1, -1)` exactly when no day at all crosses the
underlying threshold (`temp_avg ≥ 35` for heatwave, `rain_level ≥ 2` for
long rain) — even when `has_event` is false because the longest run is
shorter than 3 days. -/
theorem run_span_minus_one_iff (f : List ForecastDay) (h7 : f.length = 7) :
    (((detect_events f).heatwave.start_idx = -1 ∧
      (detect_events f).heatwave.end_idx = -1) ↔ ∀ d ∈ f, d.temp_avg < 35) ∧
    (((detect_events f).long_rain.start_idx = -1 ∧
      (detect_events f).long_rain.end_idx = -1) ↔ ∀ d ∈ f, d.rain_level < 2) := by
  constructor
  · rw [heatwave_start_eq, heatwave_end_eq]
    unfold hot_indices
    rw [longest_run_cast_span_iff, qualifying_indices_map_nil_iff]
    simp [not_le]
  · rw [long_rain_start_eq, long_rain_end_eq]
    unfold wet_indices
    rw [longest_run_cast_span_iff, qualifying_indices_map_nil_iff]
    simp [not_le]

/-- C9: whenever `storm_risk` holds, `thunderstorm` holds too, and every
storm day is a thunderstorm day (`rain ≥ 3 ∧ wind ≥ 2` implies
`rain ≥ 2 ∧ wind ≥ 2`). -/
theorem storm_risk_implies_thunderstorm (f : List ForecastDay) (h7 : f.length = 7) :
    ((detect_events f).storm_risk.has_event = true →
      (detect_events f).thunderstorm.has_event = true) ∧
    (∀ i ∈ (detect_events f).storm_risk.days,
      i ∈ (detect_events f).thunderstorm.days) := by
  have hsub : ∀ i ∈ storm_days f, i ∈ thunder_days f := by
    intro i hi
    unfold storm_days at hi
    unfold thunder_days
    rw [List.mem_filter] at hi ⊢
    refine ⟨hi.1, ?_⟩
    have h2 := hi.2
    simp only [Bool.and_eq_true, decide_eq_true_eq] at h2 ⊢
    omega
  constructor
  · intro h
    rw [storm_has_eq, decide_eq_true_eq] at h
    rw [thunder_has_eq, decide_eq_true_eq]
    obtain ⟨i, hi⟩ := List.exists_mem_of_length_pos h
    exact List.length_pos.mpr (fun hnil => by
      simp [hnil] at hsub
      exact hsub i hi)
  · rw [storm_days_eq, thunder_days_eq]
    exact hsub

/-- C4: the event dict always carries exactly the ten fixed keys, in
source order, for every 7-day forecast with levels in range. -/
theorem event_report_ten_keys (f : List ForecastDay) (h7 : f.length = 7)
    (hlvl : ∀ d ∈ f, d.rain_level ≤ 4 ∧ d.wind_level ≤ 4) :
    (eventDict (detect_events f)).map Prod.fst =
      ["heatwave", "hot_dry", "comfortable", "long_rain", "heavy_rain",
       "showers", "urban_flood_risk", "strong_wind", "thunderstorm",
       "storm_risk"] ∧
    (eventDict (detect_events f)).length = 10 :=
  ⟨rfl, rfl⟩

/-- C6: the summary composer is a pure function — byte-identical output
on componentwise-equal arguments, with no hidden state (the only
ambient data, the bias table, is an immutable constant of the module). -/
theorem build_summary_deterministic (fmt : ℚ → String) (c1 c2 e1 e2 : String)
    (f1 f2 : List ForecastDay) (v1 v2 : EventReport)
    (hc : c1 = c2) (he : e1 = e2) (hf : f1 = f2) (hv : v1 = v2) :
    build_summary fmt c1 e1 f1 v1 = build_summary fmt c2 e2 f2 v2 := by
  rw [hc, he, hf, hv]

lemma storm_days_lt (f : List ForecastDay) : ∀ i ∈ storm_days f, i < f.length := by
  intro i hi
  unfold storm_days at hi
  exact List.mem_range.mp (List.mem_filter.mp hi).1

lemma thunder_days_lt (f : List ForecastDay) : ∀ i ∈ thunder_days f, i < f.length := by
  intro i hi
  unfold thunder_days at hi
  exact List.mem_range.mp (List.mem_filter.mp hi).1

lemma heavy_rain_days_lt (f : List ForecastDay) :
    ∀ i ∈ heavy_rain_days f, i < f.length := by
  intro i hi
  have h := qualifying_indices_lt _ _ i hi
  simpa using h

lemma strong_wind_days_lt (f : List ForecastDay) :
    ∀ i ∈ strong_wind_days f, i < f.length := by
  intro i hi
  have h := qualifying_indices_lt _ _ i hi
  simpa using h

lemma wet_indices_bounds (f : List ForecastDay) :
    ∀ a ∈ wet_indices f, 0 ≤ a ∧ a < (f.length : ℤ) := by
  intro a ha
  unfold wet_indices at ha
  refine ⟨cast_list_nonneg _ a ha, cast_list_lt _ f.length ?_ a ha⟩
  intro n hn
  have h := qualifying_indices_lt _ _ n hn
  simpa using h

lemma long_rain_span_bounds (f : List ForecastDay)
    (h : (detect_events f).long_rain.has_event = true) :
    (0 ≤ (detect_events f).long_rain.start_idx ∧
      (detect_events f).long_rain.start_idx < (f.length : ℤ)) ∧
    (0 ≤ (detect_events f).long_rain.end_idx ∧
      (detect_events f).long_rain.end_idx < (f.length : ℤ)) := by
  rw [long_rain_has_eq, decide_eq_true_eq] at h
  rw [long_rain_start_eq, long_rain_end_eq]
  cases hw : wet_indices f with
  | nil =>
    rw [hw] at h
    simp [longest_run] at h
  | cons x xs =>
    rw [hw] at h
    have hmem := longest_run_mem x xs
    have hb := wet_indices_bounds f
    rw [hw] at hb
    exact ⟨hb _ hmem.1, hb _ hmem.2⟩

lemma get_some_of_lt {α : Type} (l : List α) (i : ℕ) (h : i < l.length) :
    ∃ a, l.get? i = some a :=
  ⟨l.get ⟨i, h⟩, List.get?_eq_get h⟩

lemma pyIdx_some_of_bounds {α : Type} (l : List α) (i : ℤ)
    (h0 : 0 ≤ i) (hl : i < (l.length : ℤ)) :
    ∃ a, pyIdx l i = some a := by
  unfold pyIdx
  rw [if_pos h0]
  exact get_some_of_lt l i.toNat (by omega)

lemma days_ne_nil_of_pos {α : Type} (l : List α) (h : 0 < l.length) :
    ∃ i is, l = i :: is := by
  cases l with
  | nil => simp at h
  | cons i is => exact ⟨i, is, rfl⟩

lemma rain_fragment_some (f : List ForecastDay) :
    ∃ s, rain_fragment f (detect_events f) = some s := by
  unfold rain_fragment
  cases hs : (detect_events f).storm_risk.has_event with
  | true =>
    have hlen : 0 < (storm_days f).length := by
      rw [storm_has_eq, decide_eq_true_eq] at hs
      exact hs
    obtain ⟨i, is, hd⟩ := days_ne_nil_of_pos _ hlen
    have hi : i < f.length := storm_days_lt f i (by rw [hd]; exact List.mem_cons_self i is)
    obtain ⟨d, hget⟩ := get_some_of_lt f i hi
    refine ⟨storm_text d.date, ?_⟩
    simp [hs, storm_days_eq, hd, ← List.get?_eq_getElem?, hget]
  | false =>
    cases hf : (detect_events f).urban_flood_risk.has_event with
    | true =>
      cases hl : (detect_events f).long_rain.has_event with
      | true =>
        obtain ⟨⟨hs0, hs1⟩, ⟨he0, he1⟩⟩ := long_rain_span_bounds f hl
        obtain ⟨d1, h1⟩ := pyIdx_some_of_bounds f _ hs0 hs1
        obtain ⟨d2, h2⟩ := pyIdx_some_of_bounds f _ he0 he1
        refine ⟨flood_long_text d1.date d2.date, ?_⟩
        simp [hs, hf, hl, h1, h2]
      | false =>
        exact ⟨flood_generic_text, by simp [hs, hf, hl]⟩
    | false =>
      cases hl : (detect_events f).long_rain.has_event with
      | true =>
        obtain ⟨⟨hs0, hs1⟩, ⟨he0, he1⟩⟩ := long_rain_span_bounds f hl
        obtain ⟨d1, h1⟩ := pyIdx_some_of_bounds f _ hs0 hs1
        obtain ⟨d2, h2⟩ := pyIdx_some_of_bounds f _ he0 he1
        refine ⟨long_rain_text d1.date d2.date, ?_⟩
        simp [hs, hf, hl, h1, h2]
      | false =>
        cases hh : (detect_events f).heavy_rain.has_event with
        | true =>
          have hlen : 0 < (heavy_rain_days f).length := by
            rw [heavy_rain_has_eq, decide_eq_true_eq] at hh
            exact hh
          obtain ⟨i, is, hd⟩ := days_ne_nil_of_pos _ hlen
          have hi : i < f.length :=
            heavy_rain_days_lt f i (by rw [hd]; exact List.mem_cons_self i is)
          obtain ⟨d, hget⟩ := get_some_of_lt f i hi
          refine ⟨heavy_rain_text d.date, ?_⟩
          simp [hs, hf, hl, hh, heavy_rain_days_eq, hd, ← List.get?_eq_getElem?, hget]
        | false =>
          cases hsw : (detect_events f).showers.has_event with
          | true => exact ⟨showers_text, by simp [hs, hf, hl, hh, hsw]⟩
          | false => exact ⟨"", by simp [hs, hf, hl, hh, hsw]⟩

lemma thunder_fragment_some (f : List ForecastDay) :
    ∃ s, thunder_fragment f (detect_events f) = some s := by
  unfold thunder_fragment
  cases ht : (detect_events f).thunderstorm.has_event with
  | true =>
    cases hs : (detect_events f).storm_risk.has_event with
    | true => exact ⟨"", by simp [ht, hs]⟩
    | false =>
      have hlen : 0 < (thunder_days f).length := by
        rw [thunder_has_eq, decide_eq_true_eq] at ht
        exact ht
      obtain ⟨i, is, hd⟩ := days_ne_nil_of_pos _ hlen
      have hi : i < f.length :=
        thunder_days_lt f i (by rw [hd]; exact List.mem_cons_self i is)
      obtain ⟨d, hget⟩ := get_some_of_lt f i hi
      refine ⟨thunder_text d.date, ?_⟩
      simp [ht, hs, thunder_days_eq, hd, ← List.get?_eq_getElem?, hget]
  | false => exact ⟨"", by simp [ht]⟩

lemma wind_fragment_some (f : List ForecastDay) :
    ∃ s, wind_fragment f (detect_events f) = some s := by
  unfold wind_fragment
  cases ht : (detect_events f).strong_wind.has_event with
  | true =>
    cases hs : (detect_events f).storm_risk.has_event with
    | true => exact ⟨"", by simp [ht, hs]⟩
    | false =>
      have hlen : 0 < (strong_wind_days f).length := by
        rw [strong_wind_has_eq, decide_eq_true_eq] at ht
        exact ht
      obtain ⟨i, is, hd⟩ := days_ne_nil_of_pos _ hlen
      have hi : i < f.length :=
        strong_wind_days_lt f i (by rw [hd]; exact List.mem_cons_self i is)
      obtain ⟨d, hget⟩ := get_some_of_lt f i hi
      refine ⟨wind_text d.date, ?_⟩
      simp [ht, hs, strong_wind_days_eq, hd, ← List.get?_eq_getElem?, hget]
  | false => exact ⟨"", by simp [ht]⟩

/-- C7: for a well-formed 7-day forecast and the report the detector
derives from it, the summary composer never fails: every index access it
performs is in range when the corresponding flag is true (in particular
the long-rain span indices are valid), so the whole composition returns
a value. -/
theorem detector_and_summary_total (fmt : ℚ → String) (city_name end_date : String)
    (f : List ForecastDay) (h7 : f.length = 7) :
    (build_summary fmt city_name end_date f (detect_events f)).isSome = true ∧
    ((detect_events f).storm_risk.has_event = true →
      (detect_events f).storm_risk.days ≠ []) ∧
    ((detect_events f).long_rain.has_event = true →
      0 ≤ (detect_events f).long_rain.start_idx ∧
      (detect_events f).long_rain.end_idx < (7 : ℤ)) := by
  refine ⟨?_, ?_, ?_⟩
  · obtain ⟨r, hr⟩ := rain_fragment_some f
    obtain ⟨t, ht⟩ := thunder_fragment_some f
    obtain ⟨w, hw⟩ := wind_fragment_some f
    simp [build_summary, hr, ht, hw]
  · intro h
    rw [storm_has_eq, decide_eq_true_eq] at h
    rw [storm_days_eq]
    exact List.ne_nil_of_length_pos h
  · intro h
    obtain ⟨⟨h1, _⟩, ⟨_, h4⟩⟩ := long_rain_span_bounds f h
    rw [h7] at h4
    exact ⟨h1, by exact_mod_cast h4⟩

/-- C3: the summary appends at most one rain-related fragment, chosen by
strict descending precedence `storm_risk` > `urban_flood_risk` (with a
long-rain sub-branch) > `long_rain` > `heavy_rain` > `showers`, and no
rain fragment at all when none of the five holds. -/
theorem summary_rain_precedence (fmt : ℚ → String) (city_name end_date : String)
    (f : List ForecastDay) (ev : EventReport) (hev : ev = detect_events f) :
    (ev.storm_risk.has_event = true →
      ∃ d, f.get? (ev.storm_risk.days.headD 0) = some d ∧
        build_summary fmt city_name end_date f ev =
          some (pre_rain_text fmt city_name end_date f ++ storm_text d.date)) ∧
    (ev.storm_risk.has_event = false → ev.urban_flood_risk.has_event = true →
     ev.long_rain.has_event = true →
      ∃ d1 d2 t w, pyIdx f ev.long_rain.start_idx = some d1 ∧
        pyIdx f ev.long_rain.end_idx = some d2 ∧
        thunder_fragment f ev = some t ∧ wind_fragment f ev = some w ∧
        build_summary fmt city_name end_date f ev =
          some (pre_rain_text fmt city_name end_date f ++
            flood_long_text d1.date d2.date ++ t ++ w)) ∧
    (ev.storm_risk.has_event = false → ev.urban_flood_risk.has_event = true →
     ev.long_rain.has_event = false →
      ∃ t w, thunder_fragment f ev = some t ∧ wind_fragment f ev = some w ∧
        build_summary fmt city_name end_date f ev =
          some (pre_rain_text fmt city_name end_date f ++
            flood_generic_text ++ t ++ w)) ∧
    (ev.storm_risk.has_event = false → ev.urban_flood_risk.has_event = false →
     ev.long_rain.has_event = true →
      ∃ d1 d2 t w, pyIdx f ev.long_rain.start_idx = some d1 ∧
        pyIdx f ev.long_rain.end_idx = some d2 ∧
        thunder_fragment f ev = some t ∧ wind_fragment f ev = some w ∧
        build_summary fmt city_name end_date f ev =
          some (pre_rain_text fmt city_name end_date f ++
            long_rain_text d1.date d2.date ++ t ++ w)) ∧
    (ev.storm_risk.has_event = false → ev.urban_flood_risk.has_event = false →
     ev.long_rain.has_event = false → ev.heavy_rain.has_event = true →
      ∃ d t w, f.get? (ev.heavy_rain.days.headD 0) = some d ∧
        thunder_fragment f ev = some t ∧ wind_fragment f ev = some w ∧
        build_summary fmt city_name end_date f ev =
          some (pre_rain_text fmt city_name end_date f ++
            heavy_rain_text d.date ++ t ++ w)) ∧
    (ev.storm_risk.has_event = false → ev.urban_flood_risk.has_event = false →
     ev.long_rain.has_event = false → ev.heavy_rain.has_event = false →
     ev.showers.has_event = true →
      ∃ t w, thunder_fragment f ev = some t ∧ wind_fragment f ev = some w ∧
        build_summary fmt city_name end_date f ev =
          some (pre_rain_text fmt city_name end_date f ++
            showers_text ++ t ++ w)) ∧
    (ev.storm_risk.has_event = false → ev.urban_flood_risk.has_event = false →
     ev.long_rain.has_event = false → ev.heavy_rain.has_event = false →
     ev.showers.has_event = false →
      ∃ t w, thunder_fragment f ev = some t ∧ wind_fragment f ev = some w ∧
        build_summary fmt city_name end_date f ev =
          some (pre_rain_text fmt city_name end_date f ++ t ++ w ++
            no_event_fragment ev)) := by
  subst hev
  refine ⟨?_, ?_, ?_, ?_, ?_, ?_, ?_⟩
  · intro hs
    have hlen : 0 < (storm_days f).length := by
      rw [storm_has_eq, decide_eq_true_eq] at hs
      exact hs
    obtain ⟨i, is, hd⟩ := days_ne_nil_of_pos _ hlen
    have hi : i < f.length :=
      storm_days_lt f i (by rw [hd]; exact List.mem_cons_self i is)
    obtain ⟨d, hget⟩ := get_some_of_lt f i hi
    refine ⟨d, ?_, ?_⟩
    · rw [storm_days_eq, hd]
      exact hget
    · have hr : rain_fragment f (detect_events f) = some (storm_text d.date) := by
        unfold rain_fragment
        simp [hs, storm_days_eq, hd, ← List.get?_eq_getElem?, hget]
      have ht : thunder_fragment f (detect_events f) = some "" := by
        unfold thunder_fragment
        simp [hs]
      have hw : wind_fragment f (detect_events f) = some "" := by
        unfold wind_fragment
        simp [hs]
      have hno : no_event_fragment (detect_events f) = "" := by
        unfold no_event_fragment
        simp [hs]
      simp [build_summary, hr, ht, hw, hno, pre_rain_text]
  · intro hs hf hl
    obtain ⟨⟨hs0, hs1⟩, ⟨he0, he1⟩⟩ := long_rain_span_bounds f hl
    obtain ⟨d1, h1⟩ := pyIdx_some_of_bounds f _ hs0 hs1
    obtain ⟨d2, h2⟩ := pyIdx_some_of_bounds f _ he0 he1
    obtain ⟨t, ht⟩ := thunder_fragment_some f
    obtain ⟨w, hw⟩ := wind_fragment_some f
    refine ⟨d1, d2, t, w, h1, h2, ht, hw, ?_⟩
    have hr : rain_fragment f (detect_events f) =
        some (flood_long_text d1.date d2.date) := by
      unfold rain_fragment
      simp [hs, hf, hl, h1, h2]
    have hno : no_event_fragment (detect_events f) = "" := by
      unfold no_event_fragment
      simp [hf]
    simp [build_summary, hr, ht, hw, hno, pre_rain_text]
  · intro hs hf hl
    obtain ⟨t, ht⟩ := thunder_fragment_some f
    obtain ⟨w, hw⟩ := wind_fragment_some f
    refine ⟨t, w, ht, hw, ?_⟩
    have hr : rain_fragment f (detect_events f) = some flood_generic_text := by
      unfold rain_fragment
      simp [hs, hf, hl]
    have hno : no_event_fragment (detect_events f) = "" := by
      unfold no_event_fragment
      simp [hf]
    simp [build_summary, hr, ht, hw, hno, pre_rain_text]
  · intro hs hf hl
    obtain ⟨⟨hs0, hs1⟩, ⟨he0, he1⟩⟩ := long_rain_span_bounds f hl
    obtain ⟨d1, h1⟩ := pyIdx_some_of_bounds f _ hs0 hs1
    obtain ⟨d2, h2⟩ := pyIdx_some_of_bounds f _ he0 he1
    obtain ⟨t, ht⟩ := thunder_fragment_some f
    obtain ⟨w, hw⟩ := wind_fragment_some f
    refine ⟨d1, d2, t, w, h1, h2, ht, hw, ?_⟩
    have hr : rain_fragment f (detect_events f) =
        some (long_rain_text d1.date d2.date) := by
      unfold rain_fragment
      simp [hs, hf, hl, h1, h2]
    have hno : no_event_fragment (detect_events f) = "" := by
      unfold no_event_fragment
      simp [hl]
    simp [build_summary, hr, ht, hw, hno, pre_rain_text]
  · intro hs hf hl hh
    have hlen : 0 < (heavy_rain_days f).length := by
      rw [heavy_rain_has_eq, decide_eq_true_eq] at hh
      exact hh
    obtain ⟨i, is, hd⟩ := days_ne_nil_of_pos _ hlen
    have hi : i < f.length :=
      heavy_rain_days_lt f i (by rw [hd]; exact List.mem_cons_self i is)
    obtain ⟨d, hget⟩ := get_some_of_lt f i hi
    obtain ⟨t, ht⟩ := thunder_fragment_some f
    obtain ⟨w, hw⟩ := wind_fragment_some f
    refine ⟨d, t, w, ?_, ht, hw, ?_⟩
    · rw [heavy_rain_days_eq, hd]
      exact hget
    · have hr : rain_fragment f (detect_events f) =
          some (heavy_rain_text d.date) := by
        unfold rain_fragment
        simp [hs, hf, hl, hh, heavy_rain_days_eq, hd, ← List.get?_eq_getElem?, hget]
      have hno : no_event_fragment (detect_events f) = "" := by
        unfold no_event_fragment
        simp [hh]
      simp [build_summary, hr, ht, hw, hno, pre_rain_text]
  · intro hs hf hl hh hsw
    obtain ⟨t, ht⟩ := thunder_fragment_some f
    obtain ⟨w, hw⟩ := wind_fragment_some f
    refine ⟨t, w, ht, hw, ?_⟩
    have hr : rain_fragment f (detect_events f) = some showers_text := by
      unfold rain_fragment
      simp [hs, hf, hl, hh, hsw]
    have hno : no_event_fragment (detect_events f) = "" := by
      unfold no_event_fragment
      simp [hsw]
    simp [build_summary, hr, ht, hw, hno, pre_rain_text]
  · intro hs hf hl hh hsw
    obtain ⟨t, ht⟩ := thunder_fragment_some f
    obtain ⟨w, hw⟩ := wind_fragment_some f
    refine ⟨t, w, ht, hw, ?_⟩
    have hr : rain_fragment f (detect_events f) = some "" := by
      unfold rain_fragment
      simp [hs, hf, hl, hh, hsw]
    simp [build_summary, hr, ht, hw, pre_rain_text]

/-- C3 witness: on the concrete storm forecast the summary is the prefix
plus exactly the storm fragment. -/
theorem summary_rain_precedence_witness :
    ∃ d, wit_forecast.get?
        ((detect_events wit_forecast).storm_risk.days.headD 0) = some d ∧
      build_summary fmt0 "Hanoi" "2024-01-01" wit_forecast
          (detect_events wit_forecast) =
        some (pre_rain_text fmt0 "Hanoi" "2024-01-01" wit_forecast ++
          storm_text d.date) :=
  (summary_rain_precedence fmt0 "Hanoi" "2024-01-01" wit_forecast
    (detect_events wit_forecast) rfl).1 (by decide)

/-- C4 witness at the concrete forecast. -/
theorem event_report_ten_keys_witness :
    (eventDict (detect_events wit_forecast)).map Prod.fst =
      ["heatwave", "hot_dry", "comfortable", "long_rain", "heavy_rain",
       "showers", "urban_flood_risk", "strong_wind", "thunderstorm",
       "storm_risk"] ∧
    (eventDict (detect_events wit_forecast)).length = 10 :=
  event_report_ten_keys wit_forecast (by decide) (by decide)

/-- C6 witness at the concrete forecast. -/
theorem build_summary_deterministic_witness :
    build_summary fmt0 "Hanoi" "2024-01-01" wit_forecast
        (detect_events wit_forecast) =
      build_summary fmt0 "Hanoi" "2024-01-01" wit_forecast
        (detect_events wit_forecast) :=
  build_summary_deterministic fmt0 "Hanoi" "Hanoi" "2024-01-01" "2024-01-01"
    wit_forecast wit_forecast (detect_events wit_forecast)
    (detect_events wit_forecast) rfl rfl rfl rfl

/-- C7 witness: the summary succeeds on the concrete storm forecast. -/
theorem detector_and_summary_total_witness :
    (build_summary fmt0 "Hanoi" "2024-01-01" wit_forecast
      (detect_events wit_forecast)).isSome = true :=
  (detector_and_summary_total fmt0 "Hanoi" "2024-01-01" wit_forecast
    (by decide)).1

/-- C9 witness: the storm day 2 is also a thunderstorm day. -/
theorem storm_risk_implies_thunderstorm_witness :
    (detect_events wit_forecast).thunderstorm.has_event = true ∧
    2 ∈ (detect_events wit_forecast).thunderstorm.days := by
  have h := storm_risk_implies_thunderstorm wit_forecast (by decide)
  exact ⟨h.1 (by decide), h.2 2 (by decide)⟩

/-- C10 witness: with a 2-day hot run, `has_event` is false but the
span is still `(0, 1)`, not `(-1, -1)`. -/
theorem run_span_minus_one_iff_witness :
    (detect_events wit_heat2).heatwave = ⟨false, 0, 1⟩ ∧
    ¬((detect_events wit_heat2).heatwave.start_idx = -1 ∧
      (detect_events wit_heat2).heatwave.end_idx = -1) := by
  refine ⟨by decide, fun h => ?_⟩
  have h2 := (run_span_minus_one_iff wit_heat2 (by decide)).1.mp h
  have h3 := h2 ⟨"d0", "T2", 36, 36, 10, 0, 0⟩ (by decide)
  exact absurd h3 (by decide)

lemma argmax_fold_inv (l : List ℚ) :
    ∀ (xs : List ℚ) (n : ℕ) (b r : ℕ × ℚ),
      r = (List.enumFrom n xs).foldl
        (fun best p => if best.2 < p.2 then p else best) b →
      l.drop n = xs → b.1 < l.length → b.1 < n → b.2 = l.getD b.1 0 →
      (∀ j < b.1, l.getD j 0 < b.2) →
      (∀ j, b.1 ≤ j → j < n → l.getD j 0 ≤ b.2) →
      r.1 < l.length ∧ r.2 = l.getD r.1 0 ∧
        (∀ j < r.1, l.getD j 0 < r.2) ∧
        (∀ j, j < l.length → l.getD j 0 ≤ r.2) := by
  intro xs
  induction xs with
  | nil =>
    intro n b r hr hdrop hb1 hbn hb2 hstrict hle
    have hlen : l.length ≤ n := by
      have h := congrArg List.length hdrop
      simp only [List.length_drop, List.length_nil] at h
      omega
    have hrb : r = b := by rw [hr]; rfl
    rw [hrb]
    refine ⟨hb1, hb2, hstrict, ?_⟩
    intro j hj
    by_cases hjb : j < b.1
    · exact le_of_lt (hstrict j hjb)
    · exact hle j (by omega) (by omega)
  | cons x xs2 ih =>
    intro n b r hr hdrop hb1 hbn hb2 hstrict hle
    have hn : n < l.length := by
      have h := congrArg List.length hdrop
      simp only [List.length_drop, List.length_cons] at h
      omega
    have hx : l.getD n 0 = x := by
      have h1 : (l.drop n).get? 0 = l.get? (n + 0) := List.get?_drop l n 0
      rw [hdrop] at h1
      have h2 : l.get? n = some x := by simpa using h1.symm
      simp [List.getD_eq_get?, ← List.get?_eq_getElem?, h2]
    have hxs : l.drop (n + 1) = xs2 := by
      have h1 : List.drop 1 (List.drop n l) = List.drop (n + 1) l :=
        List.drop_drop 1 n l
      rw [hdrop] at h1
      have h2 : List.drop 1 (x :: xs2) = xs2 := rfl
      rw [h2] at h1
      exact h1.symm
    rw [show List.enumFrom n (x :: xs2) = (n, x) :: List.enumFrom (n + 1) xs2
      from rfl, List.foldl_cons] at hr
    by_cases hbx : b.2 < x
    · have hstep : (if b.2 < ((n : ℕ), x).2 then ((n : ℕ), x) else b) = (n, x) := by
        simp [hbx]
      rw [hstep] at hr
      refine ih (n + 1) (n, x) r hr hxs hn (by omega) hx.symm ?_ ?_
      · intro j hj
        by_cases hjb : j < b.1
        · exact lt_trans (hstrict j hjb) hbx
        · exact lt_of_le_of_lt (hle j (by omega) hj) hbx
      · intro j h0 h1
        have hj : j = n := by omega
        subst hj
        exact le_of_eq hx
    · have hstep : (if b.2 < ((n : ℕ), x).2 then ((n : ℕ), x) else b) = b := by
        simp [hbx]
      rw [hstep] at hr
      refine ih (n + 1) b r hr hxs hb1 (by omega) hb2 hstrict ?_
      intro j h0 h1
      by_cases hjn : j < n
      · exact hle j h0 hjn
      · have hj : j = n := by omega
        subst hj
        rw [hx]
        exact not_lt.mp hbx

/-- Model of `np.argmax` returns the first index of the maximum. -/
lemma npArgmax_first (l : List ℚ) (hne : l ≠ []) :
    isFirstArgmax l (npArgmax l) := by
  obtain ⟨x, xs, rfl⟩ := List.exists_cons_of_ne_nil hne
  have hfold : npArgmax (x :: xs) =
      ((List.enumFrom 1 xs).foldl
        (fun best p => if best.2 < p.2 then p else best) ((0 : ℕ), x)).1 := by
    unfold npArgmax
    rw [show (x :: xs).enum = (0, x) :: List.enumFrom 1 xs from rfl,
      List.foldl_cons]
    congr 1
    simp
  have h := argmax_fold_inv (x :: xs) xs 1 ((0 : ℕ), x)
    ((List.enumFrom 1 xs).foldl
      (fun best p => if best.2 < p.2 then p else best) ((0 : ℕ), x))
    rfl rfl (by simp) (by omega) rfl
    (by intro j hj; exact absurd hj (Nat.not_lt_zero j))
    (by
      intro j h0 h1
      have hj : j = 0 := by omega
      subst hj
      exact le_of_eq rfl)
  obtain ⟨h1, h2, h3, h4⟩ := h
  rw [isFirstArgmax, hfold]
  refine ⟨h1, ?_, ?_⟩
  · intro j hj
    rw [← h2]
    exact h4 j hj
  · intro j hj
    rw [← h2]
    exact h3 j hj

lemma mapM_option_some {α β : Type} (g : α → Option β) :
    ∀ l : List α, (∀ a ∈ l, (g a).isSome = true) →
      ∃ out, l.mapM g = some out ∧ out.length = l.length ∧
        ∀ i : ℕ, out.get? i = (l.get? i).bind g := by
  intro l
  induction l with
  | nil =>
    intro _
    exact ⟨[], rfl, by simp, by intro i; simp⟩
  | cons a as ih =>
    intro h
    obtain ⟨b, hb⟩ := Option.isSome_iff_exists.mp (h a (List.mem_cons_self a as))
    obtain ⟨out, hout, hlen, hget⟩ :=
      ih (fun x hx => h x (List.mem_cons_of_mem a hx))
    refine ⟨b :: out, ?_, by simp [hlen], ?_⟩
    · rw [List.mapM_cons, hb, hout]
      rfl
    · intro i
      cases i with
      | zero => simp [hb]
      | succ n => simpa using hget n

/-- C5: the decoder assigns each day the argmax of its rain and wind
class distributions, with ties resolved to the lowest class index
(`isFirstArgmax` is the explicit contract of `np.argmax`). -/
theorem decode_argmax (temp wind : List ℚ) (rain_lvl wind_lvl : List (List ℚ))
    (future_dates : List FutureDate)
    (ht : temp.length = 7) (hwd : wind.length = 7)
    (hr : rain_lvl.length = 7) (hv : wind_lvl.length = 7)
    (hd : future_dates.length = 7)
    (hr5 : ∀ row ∈ rain_lvl, row ≠ []) (hv5 : ∀ row ∈ wind_lvl, row ≠ []) :
    ∃ out, run_model_and_decode temp wind rain_lvl wind_lvl future_dates =
        some out ∧ out.length = 7 ∧
      ∀ i, i < 7 → ∃ day rrow wrow,
        out.get? i = some day ∧
        rain_lvl.get? i = some rrow ∧ wind_lvl.get? i = some wrow ∧
        day.rain_level = npArgmax rrow ∧ day.wind_level = npArgmax wrow ∧
        isFirstArgmax rrow day.rain_level ∧
        isFirstArgmax wrow day.wind_level := by
  have hsome : ∀ i ∈ List.range HORIZON,
      (decode_day temp wind (rain_lvl.map npArgmax) (wind_lvl.map npArgmax)
        future_dates i).isSome = true := by
    intro i hi
    have hi7 : i < 7 := List.mem_range.mp hi
    obtain ⟨fd, hfd⟩ := get_some_of_lt future_dates i (by omega)
    obtain ⟨tv, htv⟩ := get_some_of_lt temp i (by omega)
    obtain ⟨wv, hwv⟩ := get_some_of_lt wind i (by omega)
    obtain ⟨rrow, hrrow⟩ := get_some_of_lt rain_lvl i (by omega)
    obtain ⟨wrow, hwrow⟩ := get_some_of_lt wind_lvl i (by omega)
    have hrc : (rain_lvl.map npArgmax).get? i = some (npArgmax rrow) := by
      rw [List.get?_map, hrrow]
      rfl
    have hwc : (wind_lvl.map npArgmax).get? i = some (npArgmax wrow) := by
      rw [List.get?_map, hwrow]
      rfl
    simp [decode_day, ← List.get?_eq_getElem?, hfd, htv, hwv, hrrow, hwrow, hrc, hwc]
  obtain ⟨out, hmap, hlen, hget⟩ := mapM_option_some
    (decode_day temp wind (rain_lvl.map npArgmax) (wind_lvl.map npArgmax)
      future_dates) (List.range HORIZON) hsome
  refine ⟨out, hmap, by simpa using hlen, ?_⟩
  intro i hi7
  obtain ⟨fd, hfd⟩ := get_some_of_lt future_dates i (by omega)
  obtain ⟨tv, htv⟩ := get_some_of_lt temp i (by omega)
  obtain ⟨wv, hwv⟩ := get_some_of_lt wind i (by omega)
  obtain ⟨rrow, hrrow⟩ := get_some_of_lt rain_lvl i (by omega)
  obtain ⟨wrow, hwrow⟩ := get_some_of_lt wind_lvl i (by omega)
  have hrc : (rain_lvl.map npArgmax).get? i = some (npArgmax rrow) := by
    rw [List.get?_map, hrrow]
    rfl
  have hwc : (wind_lvl.map npArgmax).get? i = some (npArgmax wrow) := by
    rw [List.get?_map, hwrow]
    rfl
  have hri : (List.range HORIZON).get? i = some i :=
    List.get?_range (by simpa [HORIZON] using hi7)
  refine ⟨ForecastDay.mk fd.dateStr (vn_day_name fd.weekday) tv tv wv
    (npArgmax rrow) (npArgmax wrow), rrow, wrow, ?_, hrrow, hwrow, rfl, rfl,
    ?_, ?_⟩
  · rw [hget i, hri]
    simp [decode_day, ← List.get?_eq_getElem?, hfd, htv, hwv, hrrow, hwrow, hrc, hwc]
  · exact npArgmax_first rrow (hr5 rrow (List.get?_mem hrrow))
  · exact npArgmax_first wrow (hv5 wrow (List.get?_mem hwrow))

/-- C5 witness: concrete decode with a rain-class tie; the tie resolves
to class index 1 (the lowest index of the maximum). -/
theorem decode_argmax_witness :
    (∃ out, run_model_and_decode wit_temp wit_windspeed wit_rain_probs
        wit_wind_probs wit_dates = some out ∧ out.length = 7 ∧
      ∀ i, i < 7 → ∃ day rrow wrow,
        out.get? i = some day ∧
        wit_rain_probs.get? i = some rrow ∧ wit_wind_probs.get? i = some wrow ∧
        day.rain_level = npArgmax rrow ∧ day.wind_level = npArgmax wrow ∧
        isFirstArgmax rrow day.rain_level ∧
        isFirstArgmax wrow day.wind_level) ∧
    npArgmax [0, 3, 3, 1, 0] = 1 := by
  refine ⟨decode_argmax wit_temp wit_windspeed wit_rain_probs wit_wind_probs
    wit_dates (by decide) (by decide) (by decide) (by decide) (by decide)
    (by decide) (by decide), by decide⟩

lemma filter_not_contains_nil (cols names : List String)
    (h : ∀ c ∈ names, c ∈ cols) :
    names.filter (fun c => !cols.contains c) = [] := by
  rw [List.filter_eq_nil_iff]
  intro c hc
  simp [h c hc]

/-- C1: with at least one but fewer than `WINDOW` historical rows at or
before the end date, the window is exactly the scaler image of the
pre-scaling matrix built by left-padding with copies of the earliest
row's features and keeping the real rows at the tail in chronological
order (the row-wise scaler commutes with the padding, so the code's
pad-after-scaling equals pad-before-scaling). -/
theorem window_pads_with_earliest (scalers : List (String × CityScaler))
    (table_cols : List String) (rows : List HistRow) (city_name : String)
    (end_date : ℤ) (sc : CityScaler)
    (hsc : scalers.lookup city_name = some sc)
    (hcols : ∀ c ∈ sc.feature_names, c ∈ table_cols)
    (hne : kept_rows rows city_name end_date ≠ [])
    (hlt : (kept_rows rows city_name end_date).length < WINDOW) :
    build_input_window scalers table_cols rows city_name end_date =
      .ok (List.map sc.transform_row
        (List.replicate (WINDOW - (kept_rows rows city_name end_date).length)
          (((kept_rows rows city_name end_date).map
            (row_features sc.feature_names)).headD []) ++
         (kept_rows rows city_name end_date).map
          (row_features sc.feature_names))) ∧
    (kept_rows rows city_name end_date).Pairwise (fun a b => a.date ≤ b.date) ∧
    (List.replicate (WINDOW - (kept_rows rows city_name end_date).length)
        (((kept_rows rows city_name end_date).map
          (row_features sc.feature_names)).headD []) ++
      (kept_rows rows city_name end_date).map
        (row_features sc.feature_names)).length = WINDOW := by
  have hfil : sc.feature_names.filter (fun c => !table_cols.contains c) = [] :=
    filter_not_contains_nil table_cols sc.feature_names hcols
  obtain ⟨k0, ks, hk⟩ := List.exists_cons_of_ne_nil hne
  have hnle : ¬(WINDOW ≤ (kept_rows rows city_name end_date).length) := by omega
  refine ⟨?_, ?_, ?_⟩
  · rw [hk] at hnle hlt ⊢
    simp only [List.length_cons] at hnle hlt
    simp only [build_input_window, hk, hsc, hfil, List.isEmpty_cons,
      Bool.false_eq_true, if_false, List.isEmpty_nil, if_true,
      List.length_map, List.length_cons, hnle, hlt,
      List.map_append, List.map_replicate, List.map_cons, List.headD_cons]
  · unfold kept_rows
    haveI : IsTotal HistRow (fun a b => a.date ≤ b.date) :=
      ⟨fun a b => Int.le_total a.date b.date⟩
    haveI : IsTrans HistRow (fun a b => a.date ≤ b.date) :=
      ⟨fun _ _ _ h1 h2 => le_trans h1 h2⟩
    exact List.sorted_insertionSort _ _
  · rw [hk]
    simp only [List.length_append, List.length_replicate, List.length_map,
      List.length_cons]
    rw [hk] at hlt
    simp only [List.length_cons] at hlt
    omega

/-- C8: the window builder fails with the data-unavailable error exactly
when zero rows exist at or before the end date; with at least one row
(and the entity's scaler and feature columns in place) it succeeds with
a `WINDOW × F` matrix. -/
theorem window_data_unavailable_iff (scalers : List (String × CityScaler))
    (table_cols : List String) (rows : List HistRow) (city_name : String)
    (end_date : ℤ) (sc : CityScaler)
    (hsc : scalers.lookup city_name = some sc)
    (hcols : ∀ c ∈ sc.feature_names, c ∈ table_cols)
    (hF : ∀ r, (sc.transform_row r).length = sc.feature_names.length) :
    (build_input_window scalers table_cols rows city_name end_date =
        .error .dataUnavailable ↔ kept_rows rows city_name end_date = []) ∧
    (kept_rows rows city_name end_date ≠ [] →
      ∃ M, build_input_window scalers table_cols rows city_name end_date =
          .ok M ∧ M.length = WINDOW ∧
        ∀ row ∈ M, row.length = sc.feature_names.length) := by
  have hfil : sc.feature_names.filter (fun c => !table_cols.contains c) = [] :=
    filter_not_contains_nil table_cols sc.feature_names hcols
  have hok : kept_rows rows city_name end_date ≠ [] →
      ∃ M, build_input_window scalers table_cols rows city_name end_date =
          .ok M ∧ M.length = WINDOW ∧
        ∀ row ∈ M, row.length = sc.feature_names.length := by
    intro hne
    obtain ⟨k0, ks, hk⟩ := List.exists_cons_of_ne_nil hne
    by_cases hwl : WINDOW ≤ (kept_rows rows city_name end_date).length
    · refine ⟨(((kept_rows rows city_name end_date).drop
          ((kept_rows rows city_name end_date).length - WINDOW)).map
            (row_features sc.feature_names)).map sc.transform_row, ?_, ?_, ?_⟩
      · rw [hk] at hwl ⊢
        simp only [List.length_cons] at hwl
        simp only [build_input_window, hk, hsc, hfil, List.isEmpty_cons,
          Bool.false_eq_true, if_false, List.isEmpty_nil, if_true,
          List.length_cons, hwl]
        split
        · rename_i hcond
          exfalso
          simp only [List.length_map, List.length_drop, List.length_cons]
            at hcond
          omega
        · rfl
      · simp only [List.length_map, List.length_drop]
        omega
      · intro row hrow
        obtain ⟨raw, _, rfl⟩ := List.mem_map.mp hrow
        exact hF raw
    · refine ⟨List.replicate
          (WINDOW - (kept_rows rows city_name end_date).length)
          ((((kept_rows rows city_name end_date).map
            (row_features sc.feature_names)).map sc.transform_row).headD []) ++
          ((kept_rows rows city_name end_date).map
            (row_features sc.feature_names)).map sc.transform_row, ?_, ?_, ?_⟩
      · rw [hk] at hwl ⊢
        simp only [List.length_cons] at hwl
        have hlt2 : ks.length + 1 < WINDOW := by omega
        simp only [build_input_window, hk, hsc, hfil, List.isEmpty_cons,
          Bool.false_eq_true, if_false, List.isEmpty_nil, if_true,
          List.length_cons, hwl, List.length_map, hlt2,
          List.map_cons, List.headD_cons]
      · rw [hk]
        simp only [List.length_append, List.length_replicate, List.length_map,
          List.length_cons]
        rw [hk] at hwl
        simp only [List.length_cons] at hwl
        omega
      · intro row hrow
        rcases List.mem_append.mp hrow with hrep | hmap
        · have hrow_eq := (List.eq_of_mem_replicate hrep)
          rw [hrow_eq, hk]
          simp only [List.map_cons, List.headD_cons]
          exact hF _
        · obtain ⟨raw, _, rfl⟩ := List.mem_map.mp hmap
          exact hF raw
  refine ⟨⟨?_, ?_⟩, hok⟩
  · intro herr
    by_contra hne
    obtain ⟨M, hM, _, _⟩ := hok hne
    rw [hM] at herr
    exact Except.noConfusion herr
  · intro hnil
    simp [build_input_window, hnil]

/-- C1 witness: ten rows pad to sixty, fifty copies of the earliest row
in front. -/
theorem window_pads_with_earliest_witness :
    build_input_window [("Hanoi", wit_scaler)] ["Date", "City", "f1"] wit_rows
        "Hanoi" 100 =
      .ok (List.map wit_scaler.transform_row
        (List.replicate (WINDOW - (kept_rows wit_rows "Hanoi" 100).length)
          (((kept_rows wit_rows "Hanoi" 100).map
            (row_features wit_scaler.feature_names)).headD []) ++
         (kept_rows wit_rows "Hanoi" 100).map
          (row_features wit_scaler.feature_names))) ∧
    WINDOW - (kept_rows wit_rows "Hanoi" 100).length = 50 := by
  refine ⟨(window_pads_with_earliest [("Hanoi", wit_scaler)]
    ["Date", "City", "f1"] wit_rows "Hanoi" 100 wit_scaler rfl (by decide)
    (by decide) (by decide)).1, by decide⟩

/-- C8 witness: empty history fails with the data-unavailable error;
the ten-row history does not. -/
theorem window_data_unavailable_iff_witness :
    build_input_window [("Hanoi", wit_scaler1)] ["Date", "City", "f1"] []
        "Hanoi" 100 = .error .dataUnavailable ∧
    ¬(build_input_window [("Hanoi", wit_scaler1)] ["Date", "City", "f1"]
        wit_rows "Hanoi" 100 = .error .dataUnavailable) := by
  constructor
  · exact (window_data_unavailable_iff [("Hanoi", wit_scaler1)]
      ["Date", "City", "f1"] [] "Hanoi" 100 wit_scaler1 rfl (by decide)
      (fun _ => rfl)).1.mpr rfl
  · intro h
    have h2 := (window_data_unavailable_iff [("Hanoi", wit_scaler1)]
      ["Date", "City", "f1"] wit_rows "Hanoi" 100 wit_scaler1 rfl (by decide)
      (fun _ => rfl)).1.mp h
    exact absurd h2 (by decide)

end Weather
